import Mathlib

/-!
Shallow embedding of `scripts/api_ratelimiter.py` (class `APIRateLimiter`).

Modelling conventions:
* Timestamps and wait times (`time.time()` floats) are rationals `ℚ`.
* Token counts and the configured ceilings (Python ints) are `Int`.
* Each `collections.deque` is a `List`, front of the deque at the head of
  the list; `popleft` removes the head, `append` adds at the tail.
* `time.time()` is passed explicitly as a `now : ℚ` argument to every
  operation that reads the clock.
* A Python method that can raise (indexing an empty deque raises
  `IndexError`) returns `Option`: `none` is the raised exception.
* `self.minute_window` and `self.day_window` are set to `60` and `86400`
  in `__init__` and never reassigned anywhere in the repository, so they
  are embedded as the constants `minute_window` and `day_window`.
-/

namespace APIRL

/-- The `limit_type` strings returned by `check_rate_limit`. -/
inductive LimitType where
  | requests_per_minute
  | tokens_per_minute
  | requests_per_day
  | tokens_per_day
deriving DecidableEq

/-- The `(can_proceed, wait_time, limit_type)` tuple returned by
`check_rate_limit` (Python `limit_type` is a string or `None`). -/
structure CheckResult where
  can_proceed : Bool
  wait_time : ℚ
  limit_type : Option LimitType
deriving DecidableEq

/-- The mutable state of one `APIRateLimiter` instance: the four configured
ceilings, the four sliding-window deques, and the four lifetime counters
(`__init__`, lines 30-55 of `scripts/api_ratelimiter.py`). -/
structure APIRateLimiter where
  name : String
  requests_per_minute : Int
  tokens_per_minute : Int
  requests_per_day : Int
  tokens_per_day : Int
  minute_requests : List ℚ
  minute_tokens : List (ℚ × Int)
  day_requests : List ℚ
  day_tokens : List (ℚ × Int)
  total_requests : Int
  total_tokens : Int
  total_wait_time : ℚ
  rate_limit_hits : Int
deriving DecidableEq

/-- `self.minute_window = 60` (line 45). -/
def minute_window : ℚ := 60

/-- `self.day_window = 86400` (line 46). -/
def day_window : ℚ := 86400

/-- `APIRateLimiter.__init__`: stores the ceilings verbatim, starts with
empty deques and zero counters. No validation of the arguments is performed. -/
def init_limiter (name : String)
    (requests_per_minute tokens_per_minute requests_per_day tokens_per_day : Int) :
    APIRateLimiter :=
  { name := name
    requests_per_minute := requests_per_minute
    tokens_per_minute := tokens_per_minute
    requests_per_day := requests_per_day
    tokens_per_day := tokens_per_day
    minute_requests := []
    minute_tokens := []
    day_requests := []
    day_tokens := []
    total_requests := 0
    total_tokens := 0
    total_wait_time := 0
    rate_limit_hits := 0 }

/-- `_clean_old_entries` (lines 57-73): pop entries from the front of each
deque while the front entry's age exceeds the window.  A `while … popleft`
loop from the front is exactly `List.dropWhile` on the head. -/
def clean_old_entries (rl : APIRateLimiter) (now : ℚ) : APIRateLimiter :=
  { rl with
    minute_requests := rl.minute_requests.dropWhile (fun t => decide (now - t > minute_window))
    minute_tokens := rl.minute_tokens.dropWhile (fun e => decide (now - e.1 > minute_window))
    day_requests := rl.day_requests.dropWhile (fun t => decide (now - t > day_window))
    day_tokens := rl.day_tokens.dropWhile (fun e => decide (now - e.1 > day_window)) }

/-- `sum(tokens for _, tokens in self.minute_tokens)` (line 99). -/
def minute_token_sum (rl : APIRateLimiter) : Int :=
  (rl.minute_tokens.map (fun e => e.2)).sum

/-- `sum(tokens for _, tokens in self.day_tokens)` (line 112). -/
def day_token_sum (rl : APIRateLimiter) : Int :=
  (rl.day_tokens.map (fun e => e.2)).sum

/-- `check_rate_limit` (lines 75-118).  Returns the result tuple together
with the state as left behind (the pruning mutation persists).  The first
component is `none` exactly when the Python code raises: on the two
request-count gates `self.minute_requests[0]` / `self.day_requests[0]` is
evaluated after the gate fires, and indexing an empty deque raises
`IndexError`.  The token gates instead guard the indexing with a
conditional expression (`… if self.minute_tokens else now`), so they never
raise. -/
def check_rate_limit (rl : APIRateLimiter) (now : ℚ) (tokens_estimate : Int) :
    Option CheckResult × APIRateLimiter :=
  let rl2 := clean_old_entries rl now
  if (rl2.minute_requests.length : Int) ≥ rl2.requests_per_minute then
    match rl2.minute_requests.head? with
    | none => (none, rl2)
    | some oldest =>
        (some ⟨false, max 0 (minute_window - (now - oldest)), some .requests_per_minute⟩, rl2)
  else if minute_token_sum rl2 + tokens_estimate > rl2.tokens_per_minute then
    let oldest_token_time :=
      match rl2.minute_tokens.head? with
      | some e => e.1
      | none => now
    (some ⟨false, max 0 (minute_window - (now - oldest_token_time)), some .tokens_per_minute⟩, rl2)
  else if (rl2.day_requests.length : Int) ≥ rl2.requests_per_day then
    match rl2.day_requests.head? with
    | none => (none, rl2)
    | some oldest =>
        (some ⟨false, max 0 (day_window - (now - oldest)), some .requests_per_day⟩, rl2)
  else if day_token_sum rl2 + tokens_estimate > rl2.tokens_per_day then
    let oldest_token_time :=
      match rl2.day_tokens.head? with
      | some e => e.1
      | none => now
    (some ⟨false, max 0 (day_window - (now - oldest_token_time)), some .tokens_per_day⟩, rl2)
  else
    (some ⟨true, 0, none⟩, rl2)

/-- `record_request` (lines 120-141): append the current timestamp to both
request deques and `(now, tokens_used)` to both token deques, then bump the
two lifetime totals.  No pruning. -/
def record_request (rl : APIRateLimiter) (now : ℚ) (tokens_used : Int) : APIRateLimiter :=
  { rl with
    minute_requests := rl.minute_requests ++ [now]
    minute_tokens := rl.minute_tokens ++ [(now, tokens_used)]
    day_requests := rl.day_requests ++ [now]
    day_tokens := rl.day_tokens ++ [(now, tokens_used)]
    total_requests := rl.total_requests + 1
    total_tokens := rl.total_tokens + tokens_used }

/-- `max_wait_time = 30` (line 156). -/
def max_wait_time : ℚ := 30

/-- Outcome of `wait_if_needed`: `proceed` is Python `True`, `give_up` is
Python `False`, `error` is a propagated `IndexError` from
`check_rate_limit`, and `out_of_fuel` marks an unfinished loop (the Python
`while True` has no bound; the fuel argument makes the embedding total). -/
inductive WaitOutcome where
  | proceed
  | give_up
  | error
  | out_of_fuel
deriving DecidableEq

/-- `wait_if_needed` (lines 143-171), in a closed single-threaded world:
`time.sleep(wait_time)` advances the clock by exactly `wait_time`, and no
other thread mutates the state in between.  Returns the outcome, the final
state and the final clock value. -/
def wait_if_needed : Nat → APIRateLimiter → ℚ → Int → WaitOutcome × APIRateLimiter × ℚ
  | 0, rl, now, _ => (.out_of_fuel, rl, now)
  | Nat.succ fuel, rl, now, tokens_estimate =>
    match check_rate_limit rl now tokens_estimate with
    | (none, rl2) => (.error, rl2, now)
    | (some res, rl2) =>
      if res.can_proceed then
        (.proceed, rl2, now)
      else if res.wait_time > max_wait_time then
        (.give_up, { rl2 with rate_limit_hits := rl2.rate_limit_hits + 1 }, now)
      else
        wait_if_needed fuel
          { rl2 with
            total_wait_time := rl2.total_wait_time + res.wait_time
            rate_limit_hits := rl2.rate_limit_hits + 1 }
          (now + res.wait_time) tokens_estimate

/-- The dictionary returned by `get_usage_stats` (lines 173-191), minus the
wall-clock `timestamp` string. -/
structure UsageStats where
  name : String
  current_minute_requests : Nat
  current_minute_tokens : Int
  current_day_requests : Nat
  current_day_tokens : Int
  total_requests : Int
  total_tokens : Int
  rate_limit_hits : Int
  total_wait_time : ℚ
  minute_limit_percentage : ℚ
  day_limit_percentage : ℚ
deriving DecidableEq

/-- `get_usage_stats` (lines 173-191): prune, then read the counts, sums,
lifetime counters and the two utilization percentages (defined as 0 when
the corresponding ceiling is not positive).  Returns the snapshot together
with the state as left behind by the pruning. -/
def get_usage_stats (rl : APIRateLimiter) (now : ℚ) : UsageStats × APIRateLimiter :=
  let rl2 := clean_old_entries rl now
  ({ name := rl2.name
     current_minute_requests := rl2.minute_requests.length
     current_minute_tokens := minute_token_sum rl2
     current_day_requests := rl2.day_requests.length
     current_day_tokens := day_token_sum rl2
     total_requests := rl2.total_requests
     total_tokens := rl2.total_tokens
     rate_limit_hits := rl2.rate_limit_hits
     total_wait_time := rl2.total_wait_time
     minute_limit_percentage :=
       if rl2.requests_per_minute > 0 then
         ((rl2.minute_requests.length : ℚ) / (rl2.requests_per_minute : ℚ)) * 100
       else 0
     day_limit_percentage :=
       if rl2.requests_per_day > 0 then
         ((rl2.day_requests.length : ℚ) / (rl2.requests_per_day : ℚ)) * 100
       else 0 }, rl2)

/-! Helper lemmas shared by the claim theorems. -/

/-- Every branch of `check_rate_limit` returns the pruned state unchanged as
its second component. -/
theorem check_state_eq (rl : APIRateLimiter) (now : ℚ) (est : Int) :
    (check_rate_limit rl now est).2 = clean_old_entries rl now := by
  unfold check_rate_limit
  dsimp only []
  split
  · split <;> rfl
  · split
    · rfl
    · split
      · split <;> rfl
      · split <;> rfl

/-- On a list sorted ascending by `key`, popping from the front while the
front entry is older than the window removes exactly the out-of-window
entries: `dropWhile` coincides with `filter`. -/
theorem dropWhile_eq_filter_of_sorted {α : Type} (key : α → ℚ) (now w : ℚ) (l : List α)
    (hs : l.Pairwise (fun a b => key a ≤ key b)) :
    l.dropWhile (fun a => decide (now - key a > w)) =
      l.filter (fun a => decide (now - key a ≤ w)) := by
  induction l with
  | nil => rfl
  | cons a tl ih =>
    rw [List.pairwise_cons] at hs
    by_cases h : now - key a > w
    · rw [List.dropWhile_cons_of_pos (by simpa using h),
        List.filter_cons_of_neg (by simpa using not_le.mpr h)]
      exact ih hs.2
    · rw [List.dropWhile_cons_of_neg (by simpa using h)]
      have hall : ∀ b ∈ a :: tl, (fun x => decide (now - key x ≤ w)) b = true := by
        intro b hb
        rcases List.mem_cons.mp hb with hb | hb
        · subst hb; simpa using not_lt.mp h
        · have hab := hs.1 b hb
          simp only [decide_eq_true_eq]
          have hle : now - key b ≤ now - key a := by linarith
          linarith [not_lt.mp h]
      rw [List.filter_eq_self.mpr hall]

/-- Appending the same element to a list and to one of its suffixes
preserves the suffix relation. -/
theorem append_single_suffix {α : Type} {s t : List α} (h : s <:+ t) (x : α) :
    s ++ [x] <:+ t ++ [x] := by
  obtain ⟨p, hp⟩ := h
  exact ⟨p, by rw [← hp, List.append_assoc]⟩

/-- Pruning a suffix with a smaller window yields a suffix of the full list
pruned with a larger window, provided the full list is sorted by `key`. -/
theorem filter_window_suffix {α : Type} (key : α → ℚ) (now w₁ w₂ : ℚ) (hw : w₁ ≤ w₂)
    (m d : List α) (hmd : m <:+ d)
    (hd : d.Pairwise (fun a b => key a ≤ key b)) :
    m.dropWhile (fun a => decide (now - key a > w₁)) <:+
      d.dropWhile (fun a => decide (now - key a > w₂)) := by
  have hm : m.Pairwise (fun a b => key a ≤ key b) := hd.sublist hmd.sublist
  have e₁ := dropWhile_eq_filter_of_sorted key now w₁ m hm
  have e₂ := dropWhile_eq_filter_of_sorted key now w₂ d hd
  have h1 : m.dropWhile (fun a => decide (now - key a > w₁)) <:+ d :=
    (List.dropWhile_suffix _).trans hmd
  have h2 : d.dropWhile (fun a => decide (now - key a > w₂)) <:+ d :=
    List.dropWhile_suffix _
  apply List.suffix_of_suffix_length_le h1 h2
  rw [e₁, e₂]
  calc (m.filter (fun a => decide (now - key a ≤ w₁))).length
      ≤ (m.filter (fun a => decide (now - key a ≤ w₂))).length := by
        apply List.Sublist.length_le
        apply List.monotone_filter_right
        intro a ha
        simp only [decide_eq_true_eq] at ha ⊢
        linarith
    _ ≤ (d.filter (fun a => decide (now - key a ≤ w₂))).length :=
        (hmd.sublist.filter _).length_le

/-! Claim theorems. -/

/-- Claim C1 (counterexample): with an empty minute-token event log, a
rejection on the minute-token gate returns `waitSeconds = 60` (the full
minute window), not `0` as the claim states: the Python conditional
expression picks `now` as the oldest timestamp, so the wait is
`60 - (now - now) = 60`. -/
theorem c1_counterexample :
    (check_rate_limit (init_limiter "m" 10 5 10000 1000000) 0 30).1 =
      some ⟨false, 60, some .tokens_per_minute⟩ ∧ (60 : ℚ) ≠ 0 := by
  constructor
  · simp [check_rate_limit, clean_old_entries, init_limiter, minute_token_sum, minute_window]
  · norm_num

/-- Claim C1 (amended): when `checkAdmission` rejects on the minute-token
gate, the limit kind is `tokens_per_minute` and the returned `waitSeconds`
is `60` (the full minute window) when the minute-token event log is empty,
and `60 - (now - oldest minute-token timestamp)` floored at 0 when it is
non-empty. -/
theorem c1_amended_thm (rl : APIRateLimiter) (now : ℚ) (est : Int)
    (h1 : ((clean_old_entries rl now).minute_requests.length : Int) <
      (clean_old_entries rl now).requests_per_minute)
    (h2 : minute_token_sum (clean_old_entries rl now) + est >
      (clean_old_entries rl now).tokens_per_minute) :
    ((clean_old_entries rl now).minute_tokens = [] →
      (check_rate_limit rl now est).1 =
        some ⟨false, minute_window, some .tokens_per_minute⟩) ∧
    (∀ e tl, (clean_old_entries rl now).minute_tokens = e :: tl →
      (check_rate_limit rl now est).1 =
        some ⟨false, max 0 (minute_window - (now - e.1)), some .tokens_per_minute⟩) := by
  unfold check_rate_limit
  dsimp only []
  rw [if_neg (not_le.mpr h1), if_pos h2]
  constructor
  · intro hemp
    rw [hemp]
    dsimp only [List.head?]
    have : max 0 (minute_window - (now - now)) = minute_window := by
      norm_num [minute_window]
    rw [this]
  · intro e tl hcons
    rw [hcons]
    rfl

/-- Witness for the amended claim C1 at a concrete input (empty
minute-token log, token gate fired). -/
theorem c1_amended_witness :
    (check_rate_limit (init_limiter "m" 10 5 10000 1000000) 0 30).1 =
      some ⟨false, minute_window, some .tokens_per_minute⟩ :=
  (c1_amended_thm (init_limiter "m" 10 5 10000 1000000) 0 30
    (by simp [clean_old_entries, init_limiter])
    (by simp [clean_old_entries, init_limiter, minute_token_sum])).1
    (by simp [clean_old_entries, init_limiter])

/-- Claim C2: with a per-minute request ceiling of 0 and an empty
minute-request log, `check_rate_limit` does not return a not-admitted
triple: it raises `IndexError` (modelled as `none`), because the gate
`len(minute_requests) >= 0` fires and `self.minute_requests[0]` indexes an
empty deque.  The claim (never raises, returns not-admitted) is the spec's
stated intent and the code's own documented return contract; the code
violates it. -/
theorem c2_zero_ceiling_crash :
    (check_rate_limit (init_limiter "m" 0 100000 10000 1000000) 0 10).1 = none := by
  simp [check_rate_limit, clean_old_entries, init_limiter]

/-- Claim C3: with `tokensPerMinute = 500` and one recorded call of 480
tokens inside the window, `checkAdmission(30)` rejects with kind
`tokens_per_minute` (480 + 30 > 500) and `checkAdmission(20)` admits
(480 + 20 = 500: the boundary is inclusive of admission). -/
theorem c3_token_boundary :
    (check_rate_limit (record_request (init_limiter "m" 20 500 10000 1000000) 0 480) 0 30).1 =
      some ⟨false, 60, some .tokens_per_minute⟩ ∧
    (check_rate_limit (record_request (init_limiter "m" 20 500 10000 1000000) 0 480) 0 20).1 =
      some ⟨true, 0, none⟩ := by
  constructor
  · simp [check_rate_limit, clean_old_entries, init_limiter, record_request,
      minute_token_sum, minute_window]
  · simp [check_rate_limit, clean_old_entries, init_limiter, record_request,
      minute_token_sum, day_token_sum, minute_window, day_window]

/-- Claim C7: `check_rate_limit` has no side effect beyond pruning: the
state it leaves behind is exactly the pruned state, each of the four event
logs is a suffix of the corresponding input log (nothing is ever appended),
and the four lifetime counters and four configured ceilings are unchanged. -/
theorem c7_check_frame (rl : APIRateLimiter) (now : ℚ) (est : Int) :
    (check_rate_limit rl now est).2 = clean_old_entries rl now ∧
    (check_rate_limit rl now est).2.minute_requests <:+ rl.minute_requests ∧
    (check_rate_limit rl now est).2.minute_tokens <:+ rl.minute_tokens ∧
    (check_rate_limit rl now est).2.day_requests <:+ rl.day_requests ∧
    (check_rate_limit rl now est).2.day_tokens <:+ rl.day_tokens ∧
    (check_rate_limit rl now est).2.total_requests = rl.total_requests ∧
    (check_rate_limit rl now est).2.total_tokens = rl.total_tokens ∧
    (check_rate_limit rl now est).2.total_wait_time = rl.total_wait_time ∧
    (check_rate_limit rl now est).2.rate_limit_hits = rl.rate_limit_hits ∧
    (check_rate_limit rl now est).2.requests_per_minute = rl.requests_per_minute ∧
    (check_rate_limit rl now est).2.tokens_per_minute = rl.tokens_per_minute ∧
    (check_rate_limit rl now est).2.requests_per_day = rl.requests_per_day ∧
    (check_rate_limit rl now est).2.tokens_per_day = rl.tokens_per_day := by
  rw [check_state_eq]
  exact ⟨rfl, List.dropWhile_suffix _, List.dropWhile_suffix _, List.dropWhile_suffix _,
    List.dropWhile_suffix _, rfl, rfl, rfl, rfl, rfl, rfl, rfl, rfl⟩


/-- Claim C4: `wait_if_needed` returns success immediately (same clock, no
counter change, state only pruned) whenever the admission check admits; and
when the check rejects with a recommended wait strictly above the 30-unit
ceiling it returns failure immediately, incrementing `rate_limit_hits`
exactly once and sleeping zero time. -/
theorem c4_wait_first_step (fuel : Nat) (rl : APIRateLimiter) (now : ℚ) (est : Int)
    (res : CheckResult) (h : (check_rate_limit rl now est).1 = some res) :
    (res.can_proceed = true →
      wait_if_needed (fuel + 1) rl now est = (.proceed, clean_old_entries rl now, now)) ∧
    (res.can_proceed = false → res.wait_time > max_wait_time →
      wait_if_needed (fuel + 1) rl now est =
        (.give_up,
          { clean_old_entries rl now with rate_limit_hits := rl.rate_limit_hits + 1 },
          now)) := by
  have hpair : check_rate_limit rl now est = (some res, clean_old_entries rl now) := by
    have h2 := check_state_eq rl now est
    cases hc : check_rate_limit rl now est
    rw [hc] at h h2
    simp only at h h2
    rw [h, h2]
  constructor
  · intro hadm
    show wait_if_needed (fuel + 1) rl now est = _
    unfold wait_if_needed
    rw [hpair]
    dsimp only []
    rw [if_pos hadm]
  · intro hrej hw
    show wait_if_needed (fuel + 1) rl now est = _
    unfold wait_if_needed
    rw [hpair]
    dsimp only []
    rw [if_neg (by simp [hrej]), if_pos hw]
    rfl

/-- `check_rate_limit` admits exactly when, after pruning, all four gates
pass: the two request counts are strictly below their ceilings and the two
in-window token sums plus the estimate are at most their ceilings. -/
theorem check_admitted_iff (rl : APIRateLimiter) (now : ℚ) (est : Int) :
    (check_rate_limit rl now est).1 = some ⟨true, 0, none⟩ ↔
      (((clean_old_entries rl now).minute_requests.length : Int) <
          (clean_old_entries rl now).requests_per_minute ∧
        minute_token_sum (clean_old_entries rl now) + est ≤
          (clean_old_entries rl now).tokens_per_minute ∧
        ((clean_old_entries rl now).day_requests.length : Int) <
          (clean_old_entries rl now).requests_per_day ∧
        day_token_sum (clean_old_entries rl now) + est ≤
          (clean_old_entries rl now).tokens_per_day) := by
  unfold check_rate_limit
  dsimp only []
  by_cases h1 : ((clean_old_entries rl now).minute_requests.length : Int) ≥
      (clean_old_entries rl now).requests_per_minute
  · rw [if_pos h1]
    rcases hh : (clean_old_entries rl now).minute_requests.head? with _ | e0 <;>
      simp [not_lt.mpr h1]
  · rw [if_neg h1]
    by_cases h2 : minute_token_sum (clean_old_entries rl now) + est >
        (clean_old_entries rl now).tokens_per_minute
    · rw [if_pos h2]
      simp [not_le.mpr h2]
    · rw [if_neg h2]
      by_cases h3 : ((clean_old_entries rl now).day_requests.length : Int) ≥
          (clean_old_entries rl now).requests_per_day
      · rw [if_pos h3]
        rcases hh : (clean_old_entries rl now).day_requests.head? with _ | e0 <;>
          simp [not_lt.mpr h3]
      · rw [if_neg h3]
        by_cases h4 : day_token_sum (clean_old_entries rl now) + est >
            (clean_old_entries rl now).tokens_per_day
        · rw [if_pos h4]
          simp [not_le.mpr h4]
        · rw [if_neg h4]
          simp [not_le.mp h1, not_lt.mp h2, not_le.mp h3, not_lt.mp h4]

/-- The only result of `check_rate_limit` with `can_proceed = true` is the
admission triple `(True, 0, None)`. -/
theorem check_proceed_eq_admitted (rl : APIRateLimiter) (now : ℚ) (est : Int)
    (r : CheckResult) (h : (check_rate_limit rl now est).1 = some r)
    (hadm : r.can_proceed = true) : r = ⟨true, 0, none⟩ := by
  unfold check_rate_limit at h
  dsimp only [] at h
  split at h
  · split at h
    · simp at h
    · obtain rfl := Option.some.inj h
      simp at hadm
  · split at h
    · obtain rfl := Option.some.inj h
      simp at hadm
    · split at h
      · split at h
        · simp at h
        · obtain rfl := Option.some.inj h
          simp at hadm
      · split at h
        · obtain rfl := Option.some.inj h
          simp at hadm
        · obtain rfl := Option.some.inj h
          rfl

/-- Claim C6: admission is monotonic in the token estimate: same state and
time, a smaller estimate can only turn rejection into admission, never the
reverse. -/
theorem c6_monotone_estimate (rl : APIRateLimiter) (now : ℚ) (e e' : Int) (hlt : e' < e)
    (r : CheckResult) (h : (check_rate_limit rl now e).1 = some r)
    (hadm : r.can_proceed = true) :
    (check_rate_limit rl now e').1 = some ⟨true, 0, none⟩ := by
  have hr := check_proceed_eq_admitted rl now e r h hadm
  subst hr
  rw [check_admitted_iff] at h
  rw [check_admitted_iff]
  obtain ⟨h1, h2, h3, h4⟩ := h
  exact ⟨h1, by linarith, h3, by linarith⟩

/-- Witness for claim C4: a fresh limiter is admitted immediately, and a
limiter whose only violated gate recommends a 45-unit wait gives up with
`rate_limit_hits` incremented once. -/
theorem c4_wait_first_step_witness :
    wait_if_needed 1 (init_limiter "m" 20 100000 10000 1000000) 0 10 =
      (.proceed, clean_old_entries (init_limiter "m" 20 100000 10000 1000000) 0, 0) ∧
    wait_if_needed 1 (record_request (init_limiter "m" 1 100000 10000 1000000) 0 100) 15 10 =
      (.give_up,
        { clean_old_entries (record_request (init_limiter "m" 1 100000 10000 1000000) 0 100) 15 with
          rate_limit_hits :=
            (record_request (init_limiter "m" 1 100000 10000 1000000) 0 100).rate_limit_hits + 1 },
        15) :=
  ⟨(c4_wait_first_step 0 (init_limiter "m" 20 100000 10000 1000000) 0 10 ⟨true, 0, none⟩
      (by simp [check_rate_limit, clean_old_entries, init_limiter, minute_token_sum,
        day_token_sum])).1 rfl,
   (c4_wait_first_step 0 (record_request (init_limiter "m" 1 100000 10000 1000000) 0 100) 15 10
      ⟨false, 45, some .requests_per_minute⟩
      (by simp [check_rate_limit, clean_old_entries, init_limiter, record_request, minute_window]
          norm_num)).2
      rfl (by norm_num [max_wait_time])⟩

/-- Witness for claim C6 at estimate 30 versus 10 on a fresh limiter. -/
theorem c6_monotone_estimate_witness :
    (10 : Int) < 30 ∧
    (check_rate_limit (init_limiter "m" 20 100000 10000 1000000) 0 10).1 =
      some ⟨true, 0, none⟩ :=
  ⟨by norm_num,
   c6_monotone_estimate (init_limiter "m" 20 100000 10000 1000000) 0 30 10 (by norm_num)
     ⟨true, 0, none⟩
     (by simp [check_rate_limit, clean_old_entries, init_limiter, minute_token_sum, day_token_sum])
     rfl⟩

/-- Claim C5: on sorted (ascending-timestamp) logs, pruning keeps exactly
the entries whose age is at most the window (60 for the minute logs, 86400
for the day logs), in unchanged ascending order. -/
theorem c5_prune_window_exact (rl : APIRateLimiter) (now : ℚ)
    (h1 : rl.minute_requests.Pairwise (· ≤ ·))
    (h2 : rl.minute_tokens.Pairwise (fun a b => a.1 ≤ b.1))
    (h3 : rl.day_requests.Pairwise (· ≤ ·))
    (h4 : rl.day_tokens.Pairwise (fun a b => a.1 ≤ b.1)) :
    ((clean_old_entries rl now).minute_requests =
        rl.minute_requests.filter (fun t => decide (now - t ≤ minute_window)) ∧
      (clean_old_entries rl now).minute_tokens =
        rl.minute_tokens.filter (fun e => decide (now - e.1 ≤ minute_window)) ∧
      (clean_old_entries rl now).day_requests =
        rl.day_requests.filter (fun t => decide (now - t ≤ day_window)) ∧
      (clean_old_entries rl now).day_tokens =
        rl.day_tokens.filter (fun e => decide (now - e.1 ≤ day_window))) ∧
    ((clean_old_entries rl now).minute_requests.Pairwise (· ≤ ·) ∧
      (clean_old_entries rl now).minute_tokens.Pairwise (fun a b => a.1 ≤ b.1) ∧
      (clean_old_entries rl now).day_requests.Pairwise (· ≤ ·) ∧
      (clean_old_entries rl now).day_tokens.Pairwise (fun a b => a.1 ≤ b.1)) :=
  ⟨⟨dropWhile_eq_filter_of_sorted (fun t => t) now minute_window _ h1,
    dropWhile_eq_filter_of_sorted Prod.fst now minute_window rl.minute_tokens h2,
    dropWhile_eq_filter_of_sorted (fun t => t) now day_window _ h3,
    dropWhile_eq_filter_of_sorted Prod.fst now day_window rl.day_tokens h4⟩,
   List.Pairwise.sublist (List.dropWhile_suffix _).sublist h1,
   List.Pairwise.sublist (List.dropWhile_suffix _).sublist h2,
   List.Pairwise.sublist (List.dropWhile_suffix _).sublist h3,
   List.Pairwise.sublist (List.dropWhile_suffix _).sublist h4⟩

/-- Witness for claim C5: two recorded calls at t=0 and t=50, pruned at
t=70. -/
theorem c5_prune_window_exact_witness :
    ((clean_old_entries
        (record_request (record_request (init_limiter "m" 20 100000 10000 1000000) 0 100) 50 200)
        70).minute_requests =
      (record_request (record_request (init_limiter "m" 20 100000 10000 1000000) 0 100) 50
          200).minute_requests.filter (fun t => decide ((70 : ℚ) - t ≤ minute_window)) ∧
     (clean_old_entries
        (record_request (record_request (init_limiter "m" 20 100000 10000 1000000) 0 100) 50 200)
        70).minute_tokens =
      (record_request (record_request (init_limiter "m" 20 100000 10000 1000000) 0 100) 50
          200).minute_tokens.filter (fun e => decide ((70 : ℚ) - e.1 ≤ minute_window)) ∧
     (clean_old_entries
        (record_request (record_request (init_limiter "m" 20 100000 10000 1000000) 0 100) 50 200)
        70).day_requests =
      (record_request (record_request (init_limiter "m" 20 100000 10000 1000000) 0 100) 50
          200).day_requests.filter (fun t => decide ((70 : ℚ) - t ≤ day_window)) ∧
     (clean_old_entries
        (record_request (record_request (init_limiter "m" 20 100000 10000 1000000) 0 100) 50 200)
        70).day_tokens =
      (record_request (record_request (init_limiter "m" 20 100000 10000 1000000) 0 100) 50
          200).day_tokens.filter (fun e => decide ((70 : ℚ) - e.1 ≤ day_window))) ∧
    ((clean_old_entries
        (record_request (record_request (init_limiter "m" 20 100000 10000 1000000) 0 100) 50 200)
        70).minute_requests.Pairwise (· ≤ ·) ∧
     (clean_old_entries
        (record_request (record_request (init_limiter "m" 20 100000 10000 1000000) 0 100) 50 200)
        70).minute_tokens.Pairwise (fun a b => a.1 ≤ b.1) ∧
     (clean_old_entries
        (record_request (record_request (init_limiter "m" 20 100000 10000 1000000) 0 100) 50 200)
        70).day_requests.Pairwise (· ≤ ·) ∧
     (clean_old_entries
        (record_request (record_request (init_limiter "m" 20 100000 10000 1000000) 0 100) 50 200)
        70).day_tokens.Pairwise (fun a b => a.1 ≤ b.1)) :=
  c5_prune_window_exact
    (record_request (record_request (init_limiter "m" 20 100000 10000 1000000) 0 100) 50 200) 70
    (by decide) (by decide) (by decide) (by decide)

/-- Claim C8 (counterexample): no fail-fast validation exists.
Construction with a zero and a negative ceiling succeeds and stores them
verbatim (no error of any kind is raised), and an admission call with a
negative token estimate returns a normal admission triple instead of a
clearly labeled error. -/
theorem c8_counterexample :
    init_limiter "m" 0 (-5) 10000 1000000 =
      { name := "m", requests_per_minute := 0, tokens_per_minute := -5,
        requests_per_day := 10000, tokens_per_day := 1000000,
        minute_requests := [], minute_tokens := [], day_requests := [], day_tokens := [],
        total_requests := 0, total_tokens := 0, total_wait_time := 0, rate_limit_hits := 0 } ∧
    (check_rate_limit (init_limiter "m" 20 100000 10000 1000000) 0 (-5)).1 =
      some ⟨true, 0, none⟩ := by
  constructor
  · rfl
  · simp [check_rate_limit, clean_old_entries, init_limiter, minute_token_sum, day_token_sum]

/-- Claim C8 (amended): the limiter performs no validation at construction
or call time: any ceilings, zero or negative included, are stored verbatim
without error, and a negative token estimate is accepted without error (on
a fresh limiter with positive request ceilings and non-negative token
ceilings, it is simply admitted — the negative estimate relaxes the token
gates). -/
theorem c8_amended_thm (name : String) (a b c d : Int) (now : ℚ) (est : Int)
    (hneg : est < 0) :
    init_limiter name a b c d =
      { name := name, requests_per_minute := a, tokens_per_minute := b,
        requests_per_day := c, tokens_per_day := d,
        minute_requests := [], minute_tokens := [], day_requests := [], day_tokens := [],
        total_requests := 0, total_tokens := 0, total_wait_time := 0, rate_limit_hits := 0 } ∧
    (0 < a → 0 ≤ b → 0 < c → 0 ≤ d →
      (check_rate_limit (init_limiter name a b c d) now est).1 = some ⟨true, 0, none⟩) := by
  refine ⟨rfl, fun ha hb hc hd => ?_⟩
  rw [check_admitted_iff]
  refine ⟨?_, ?_, ?_, ?_⟩ <;>
    simp [clean_old_entries, init_limiter, minute_token_sum, day_token_sum] <;>
    omega

/-- Witness for the amended claim C8 at estimate -5 on a fresh limiter. -/
theorem c8_amended_witness :
    init_limiter "m" 20 100000 10000 1000000 =
      { name := "m", requests_per_minute := 20, tokens_per_minute := 100000,
        requests_per_day := 10000, tokens_per_day := 1000000,
        minute_requests := [], minute_tokens := [], day_requests := [], day_tokens := [],
        total_requests := 0, total_tokens := 0, total_wait_time := 0, rate_limit_hits := 0 } ∧
    (check_rate_limit (init_limiter "m" 20 100000 10000 1000000) 0 (-5)).1 =
      some ⟨true, 0, none⟩ :=
  ⟨(c8_amended_thm "m" 20 100000 10000 1000000 0 (-5) (by norm_num)).1,
   (c8_amended_thm "m" 20 100000 10000 1000000 0 (-5) (by norm_num)).2
     (by norm_num) (by norm_num) (by norm_num) (by norm_num)⟩


/-- The eight mutable fields the spec says the lock must guard. -/
inductive RLField where
  | minute_requests
  | minute_tokens
  | day_requests
  | day_tokens
  | total_requests
  | total_tokens
  | total_wait_time
  | rate_limit_hits
deriving DecidableEq

/-- One step of a public operation, as it appears in the source text:
acquiring or releasing `self.lock`, sleeping, or touching one of the eight
mutable fields. -/
inductive LockAction where
  | acquire
  | release
  | sleep
  | read (f : RLField)
  | write (f : RLField)
deriving DecidableEq

/-- `_clean_old_entries` (lines 57-73): each `while … popleft()` loop reads
and rewrites one deque. -/
def clean_actions : List LockAction :=
  [.read .minute_requests, .write .minute_requests,
   .read .minute_tokens, .write .minute_tokens,
   .read .day_requests, .write .day_requests,
   .read .day_tokens, .write .day_tokens]

/-- `check_rate_limit` (lines 88-118): the whole body runs inside
`with self.lock`, pruning first, then reading the four logs for the gates. -/
def check_actions : List LockAction :=
  [.acquire] ++ clean_actions ++
    [.read .minute_requests, .read .minute_tokens,
     .read .day_requests, .read .day_tokens] ++
    [.release]

/-- `record_request` (lines 128-141): the four appends and the two total
updates, all inside `with self.lock`. -/
def record_actions : List LockAction :=
  [.acquire,
   .write .minute_requests, .write .minute_tokens,
   .write .day_requests, .write .day_tokens,
   .read .total_requests, .write .total_requests,
   .read .total_tokens, .write .total_tokens,
   .release]

/-- `get_usage_stats` (lines 175-191): prune, then read the logs and the
four lifetime counters, all inside `with self.lock`. -/
def stats_actions : List LockAction :=
  [.acquire] ++ clean_actions ++
    [.read .minute_requests, .read .minute_tokens,
     .read .day_requests, .read .day_tokens,
     .read .total_requests, .read .total_tokens,
     .read .rate_limit_hits, .read .total_wait_time] ++
    [.release]

/-- One iteration of `wait_if_needed` ending in the give-up branch
(lines 158-166): the admission check runs under the lock, but the
`self.rate_limit_hits += 1` on line 165 runs after the lock was released. -/
def wait_give_up_actions : List LockAction :=
  check_actions ++ [.read .rate_limit_hits, .write .rate_limit_hits]

/-- One iteration of `wait_if_needed` ending in the sleep-and-retry branch
(lines 158-171): `self.total_wait_time += wait_time` (line 169) and
`self.rate_limit_hits += 1` (line 170) run after the lock was released,
then the thread sleeps. -/
def wait_retry_actions : List LockAction :=
  check_actions ++
    [.read .total_wait_time, .write .total_wait_time,
     .read .rate_limit_hits, .write .rate_limit_hits, .sleep]

/-- The field accesses of a trace performed while the lock depth is zero,
scanning left to right with the given starting depth. -/
def unguarded_accesses : List LockAction → Nat → List LockAction
  | [], _ => []
  | .acquire :: rest, depth => unguarded_accesses rest (depth + 1)
  | .release :: rest, depth => unguarded_accesses rest (depth - 1)
  | .sleep :: rest, depth => unguarded_accesses rest depth
  | .read f :: rest, depth =>
    if depth = 0 then .read f :: unguarded_accesses rest depth
    else unguarded_accesses rest depth
  | .write f :: rest, depth =>
    if depth = 0 then .write f :: unguarded_accesses rest depth
    else unguarded_accesses rest depth

/-- Claim C9: which accesses to the eight mutable fields happen under the
lock, operation by operation.  `check_rate_limit`, `record_request` and
`get_usage_stats` are fully guarded, but the blocking-wait driver performs
its `rate_limit_hits` update (give-up branch) and its `total_wait_time` and
`rate_limit_hits` updates (retry branch) with the lock already released —
contradicting the claim (and the class docstring "Thread-safe for use in
concurrent environments"). -/
theorem c9_lock_coverage :
    unguarded_accesses check_actions 0 = [] ∧
    unguarded_accesses record_actions 0 = [] ∧
    unguarded_accesses stats_actions 0 = [] ∧
    unguarded_accesses wait_give_up_actions 0 =
      [.read .rate_limit_hits, .write .rate_limit_hits] ∧
    unguarded_accesses wait_retry_actions 0 =
      [.read .total_wait_time, .write .total_wait_time,
       .read .rate_limit_hits, .write .rate_limit_hits] := by
  decide

/-- The token sum over a suffix is at most the token sum over the whole
list when all token values are non-negative. -/
theorem suffix_sum_le {s d : List (ℚ × Int)} (h : s <:+ d)
    (hnn : ∀ e ∈ d, 0 ≤ e.2) :
    (s.map (fun e => e.2)).sum ≤ (d.map (fun e => e.2)).sum := by
  obtain ⟨p, hp⟩ := h
  subst hp
  rw [List.map_append, List.sum_append]
  have hge : 0 ≤ (p.map (fun e => e.2)).sum := by
    apply List.sum_nonneg
    intro x hx
    obtain ⟨e, he, rfl⟩ := List.mem_map.mp hx
    exact hnn e (List.mem_append_left _ he)
  linarith

/-- Across any number of iterations of `wait_if_needed`, the minute logs
remain suffixes of the day logs: each iteration only prunes the logs and
bumps counters. -/
theorem wait_preserves_log_suffix (fuel : Nat) :
    ∀ (rl : APIRateLimiter) (now : ℚ) (est : Int),
      rl.minute_requests <:+ rl.day_requests →
      rl.minute_tokens <:+ rl.day_tokens →
      rl.day_requests.Pairwise (· ≤ ·) →
      rl.day_tokens.Pairwise (fun a b => a.1 ≤ b.1) →
      (wait_if_needed fuel rl now est).2.1.minute_requests <:+
          (wait_if_needed fuel rl now est).2.1.day_requests ∧
        (wait_if_needed fuel rl now est).2.1.minute_tokens <:+
          (wait_if_needed fuel rl now est).2.1.day_tokens := by
  induction fuel with
  | zero =>
    intro rl now est hmr hmt hsr hst
    exact ⟨hmr, hmt⟩
  | succ fuel ih =>
    intro rl now est hmr hmt hsr hst
    have hwin : minute_window ≤ day_window := by norm_num [minute_window, day_window]
    have hclean_r : (clean_old_entries rl now).minute_requests <:+
        (clean_old_entries rl now).day_requests :=
      filter_window_suffix (fun t => t) now minute_window day_window hwin
        rl.minute_requests rl.day_requests hmr hsr
    have hclean_t : (clean_old_entries rl now).minute_tokens <:+
        (clean_old_entries rl now).day_tokens :=
      filter_window_suffix Prod.fst now minute_window day_window hwin
        rl.minute_tokens rl.day_tokens hmt hst
    have hsort_r : (clean_old_entries rl now).day_requests.Pairwise (· ≤ ·) :=
      List.Pairwise.sublist (List.dropWhile_suffix _).sublist hsr
    have hsort_t : (clean_old_entries rl now).day_tokens.Pairwise (fun a b => a.1 ≤ b.1) :=
      List.Pairwise.sublist (List.dropWhile_suffix _).sublist hst
    unfold wait_if_needed
    rcases hc : check_rate_limit rl now est with ⟨o, st⟩
    have hst2 : st = clean_old_entries rl now := by
      have h2 := check_state_eq rl now est
      rw [hc] at h2
      exact h2
    subst hst2
    rcases o with _ | res
    · exact ⟨hclean_r, hclean_t⟩
    · dsimp only []
      by_cases hp : res.can_proceed
      · rw [if_pos hp]
        exact ⟨hclean_r, hclean_t⟩
      · rw [if_neg hp]
        by_cases hw : res.wait_time > max_wait_time
        · rw [if_pos hw]
          exact ⟨hclean_r, hclean_t⟩
        · rw [if_neg hw]
          exact ih _ _ est hclean_r hclean_t hsort_r hsort_t

/-- Claim C10: on a limiter whose minute logs are suffixes of the
corresponding day logs, with day logs sorted ascending by timestamp and all
recorded token counts non-negative, every operation preserves the suffix
coupling (recording appends the identical entry to both logs; pruning with
the 60-unit window removes at least what the 86400-unit window removes),
and consequently every snapshot reports a minute request count at most the
day request count and a minute token sum at most the day token sum. -/
theorem c10_minute_day_coupling (rl : APIRateLimiter) (now : ℚ) (tok est : Int) (fuel : Nat)
    (hmr : rl.minute_requests <:+ rl.day_requests)
    (hmt : rl.minute_tokens <:+ rl.day_tokens)
    (hsr : rl.day_requests.Pairwise (· ≤ ·))
    (hst : rl.day_tokens.Pairwise (fun a b => a.1 ≤ b.1))
    (hnn : ∀ e ∈ rl.day_tokens, 0 ≤ e.2) :
    ((record_request rl now tok).minute_requests <:+ (record_request rl now tok).day_requests ∧
      (record_request rl now tok).minute_tokens <:+ (record_request rl now tok).day_tokens) ∧
    ((clean_old_entries rl now).minute_requests <:+ (clean_old_entries rl now).day_requests ∧
      (clean_old_entries rl now).minute_tokens <:+ (clean_old_entries rl now).day_tokens) ∧
    ((check_rate_limit rl now est).2.minute_requests <:+
        (check_rate_limit rl now est).2.day_requests ∧
      (check_rate_limit rl now est).2.minute_tokens <:+
        (check_rate_limit rl now est).2.day_tokens) ∧
    ((wait_if_needed fuel rl now est).2.1.minute_requests <:+
        (wait_if_needed fuel rl now est).2.1.day_requests ∧
      (wait_if_needed fuel rl now est).2.1.minute_tokens <:+
        (wait_if_needed fuel rl now est).2.1.day_tokens) ∧
    ((get_usage_stats rl now).1.current_minute_requests ≤
        (get_usage_stats rl now).1.current_day_requests ∧
      (get_usage_stats rl now).1.current_minute_tokens ≤
        (get_usage_stats rl now).1.current_day_tokens) := by
  have hwin : minute_window ≤ day_window := by norm_num [minute_window, day_window]
  have hclean_r : (clean_old_entries rl now).minute_requests <:+
      (clean_old_entries rl now).day_requests :=
    filter_window_suffix (fun t => t) now minute_window day_window hwin
      rl.minute_requests rl.day_requests hmr hsr
  have hclean_t : (clean_old_entries rl now).minute_tokens <:+
      (clean_old_entries rl now).day_tokens :=
    filter_window_suffix Prod.fst now minute_window day_window hwin
      rl.minute_tokens rl.day_tokens hmt hst
  refine ⟨⟨append_single_suffix hmr now, append_single_suffix hmt (now, tok)⟩,
    ⟨hclean_r, hclean_t⟩, ?_, wait_preserves_log_suffix fuel rl now est hmr hmt hsr hst, ?_, ?_⟩
  · rw [check_state_eq]
    exact ⟨hclean_r, hclean_t⟩
  · exact hclean_r.length_le
  · show minute_token_sum (clean_old_entries rl now) ≤ day_token_sum (clean_old_entries rl now)
    apply suffix_sum_le hclean_t
    intro e he
    exact hnn e ((List.dropWhile_suffix _).subset he)

/-- Witness for claim C10: one call recorded at t=0, snapshot taken at
t=70 (the minute entry pruned, the day entry kept). -/
theorem c10_minute_day_coupling_witness :
    (get_usage_stats (record_request (init_limiter "m" 20 100000 10000 1000000) 0 100)
        70).1.current_minute_requests ≤
      (get_usage_stats (record_request (init_limiter "m" 20 100000 10000 1000000) 0 100)
        70).1.current_day_requests ∧
    (get_usage_stats (record_request (init_limiter "m" 20 100000 10000 1000000) 0 100)
        70).1.current_minute_tokens ≤
      (get_usage_stats (record_request (init_limiter "m" 20 100000 10000 1000000) 0 100)
        70).1.current_day_tokens :=
  (c10_minute_day_coupling (record_request (init_limiter "m" 20 100000 10000 1000000) 0 100)
    70 7 5 1 ⟨[], rfl⟩ ⟨[], rfl⟩ (by decide) (by decide) (by decide)).2.2.2.2

end APIRL
